import Mathlib

/-!
Verification of the `UniversalAtomicSolver` package of the kensho repository
(files `atomic_solver.py`, `problem_state.py`, `universal_validator.py`).

The solver orchestrates a language-model backend.  The backend adapter
(`AtomicSolver._call_llm`) catches every backend exception and turns it into a
sentinel text, so every call returns *some* string.  We therefore model the
backend as an oracle `Env` that yields an arbitrary string for each successive
call (calls are numbered in the order the solver makes them), together with an
oracle choice of the permutation used by `random.shuffle`.

Python-specific dynamic behaviour (JSON decoding, subscripting, `len`,
iteration, `==`) is modelled explicitly on a `PyJson` value type; operations
that can raise return `Except PyErr`.
-/

/-- Model of a value decoded by Python's `json.loads`.  Integral numerals are
decoded to `num`; non-integral numerals (fractions, exponents, `NaN`,
`Infinity`) are floating-point values, which we keep opaque as their lexeme in
`numRaw`. -/
inductive PyJson where
  | null
  | bool (b : Bool)
  | num (n : Int)
  | numRaw (s : String)
  | str (s : String)
  | arr (elems : List PyJson)
  | obj (fields : List (String × PyJson))

/-- Exceptions the embedded code can raise. -/
inductive PyErr where
  | jsonDecodeError
  | typeError
  | keyError
  | indexError
  | valueError
deriving DecidableEq, Repr

/-- Helper for Python's `in` operator on strings: does `pat` occur as a
contiguous substring of the character list? -/
def strContainsAux (pat : List Char) : List Char → Bool
  | [] => pat.isEmpty
  | c :: rest => pat.isPrefixOf (c :: rest) || strContainsAux pat rest

/-- Model of Python's `pat in hay` substring test. -/
def strContains (hay pat : String) : Bool :=
  strContainsAux pat.data hay.data

def fenceJson : List Char := "```json".data

def fence3 : List Char := "```".data

/-- Model of `re.sub(r"```json|```", "", raw)`: scan left to right, at each
position try the alternative `"```json"` first, then `"```"`; on a match skip
it, otherwise keep the character.  Fuel is the length of the list, which
bounds the number of steps since each step consumes at least one character. -/
def stripFencesAux : Nat → List Char → List Char
  | 0, l => l
  | _, [] => []
  | fuel + 1, c :: rest =>
    if fenceJson.isPrefixOf (c :: rest) then stripFencesAux fuel ((c :: rest).drop 7)
    else if fence3.isPrefixOf (c :: rest) then stripFencesAux fuel ((c :: rest).drop 3)
    else c :: stripFencesAux fuel rest

/-- Whitespace stripped by Python's `str.strip()` (the ASCII cases: space,
tab, newline, carriage return, vertical tab, form feed). -/
def isPyWs (c : Char) : Bool :=
  c == ' ' || c == '\t' || c == '\n' || c == '\r' || c == Char.ofNat 11 || c == Char.ofNat 12

/-- Model of Python's `str.strip()`. -/
def pyStrip (s : String) : String :=
  String.mk (((s.data.dropWhile isPyWs).reverse.dropWhile isPyWs).reverse)

/-- Model of `re.sub(r"```json|```", "", raw).strip()` as used on every raw
model response before JSON decoding. -/
def stripFences (raw : String) : String :=
  pyStrip (String.mk (stripFencesAux raw.data.length raw.data))

/-- Helper for `re.sub(r"<.*?>", "", s)`: after an opening `<`, find the
closing `>` that occurs before any newline (Python's `.` does not match a
newline), returning the remainder after it. -/
def findTagEnd : List Char → Option (List Char)
  | [] => none
  | c :: rest =>
    if c == '>' then some rest
    else if c == '\n' then none
    else findTagEnd rest

/-- Fuel-driven scan for `stripHtmlTags`; each step consumes at least one
character, so the length of the list is enough fuel. -/
def stripTagsAux : Nat → List Char → List Char
  | 0, l => l
  | _, [] => []
  | fuel + 1, c :: rest =>
    if c == '<' then
      match findTagEnd rest with
      | some rem => stripTagsAux fuel rem
      | none => c :: stripTagsAux fuel rest
    else c :: stripTagsAux fuel rest

/-- Model of `re.sub(r"<.*?>", "", winner_raw)`: remove every non-greedy
`<...>` span that closes before a newline. -/
def stripHtmlTags (s : String) : String :=
  String.mk (stripTagsAux s.data.length s.data)

/-! JSON parser: a model of Python's `json.loads` on string input, restricted
to the behaviour visible to this program: on success some decoded `PyJson`
value, on any parse error `none` (Python raises `json.JSONDecodeError`).
Python's extensions `NaN`, `Infinity` and `-Infinity` are accepted as opaque
`numRaw` values.  `\uXXXX` escapes outside the valid scalar range fall back to
the default character, and deep-recursion limits are not modelled. -/

def isJsonWs (c : Char) : Bool :=
  c == ' ' || c == '\t' || c == '\n' || c == '\r'

def skipWs : List Char → List Char
  | [] => []
  | c :: rest => if isJsonWs c then skipWs rest else c :: rest

def hexVal (c : Char) : Option Nat :=
  if '0' ≤ c && c ≤ '9' then some (c.toNat - 48)
  else if 'a' ≤ c && c ≤ 'f' then some (c.toNat - 87)
  else if 'A' ≤ c && c ≤ 'F' then some (c.toNat - 55)
  else none

/-- Parse the body of a JSON string (the opening quote already consumed),
returning the decoded characters and the remainder after the closing quote.
Escapes follow the JSON grammar; raw control characters are rejected as in
Python's strict mode. -/
def parseStringAux : Nat → List Char → Option (List Char × List Char)
  | 0, _ => none
  | fuel + 1, l =>
    match l with
    | [] => none
    | c :: rest =>
      if c == '"' then some ([], rest)
      else if c == '\\' then
        match rest with
        | [] => none
        | e :: rest2 =>
          let cont (decoded : Char) (after : List Char) : Option (List Char × List Char) :=
            match parseStringAux fuel after with
            | some (cs, r) => some (decoded :: cs, r)
            | none => none
          if e == '"' then cont '"' rest2
          else if e == '\\' then cont '\\' rest2
          else if e == '/' then cont '/' rest2
          else if e == 'b' then cont (Char.ofNat 8) rest2
          else if e == 'f' then cont (Char.ofNat 12) rest2
          else if e == 'n' then cont '\n' rest2
          else if e == 'r' then cont (Char.ofNat 13) rest2
          else if e == 't' then cont '\t' rest2
          else if e == 'u' then
            match rest2 with
            | h1 :: h2 :: h3 :: h4 :: rest3 =>
              match hexVal h1, hexVal h2, hexVal h3, hexVal h4 with
              | some a, some b, some cc, some d =>
                cont (Char.ofNat (((a * 16 + b) * 16 + cc) * 16 + d)) rest3
              | _, _, _, _ => none
            | _ => none
          else none
      else if c.toNat < 32 then none
      else
        match parseStringAux fuel rest with
        | some (cs, r) => some (c :: cs, r)
        | none => none

def digitsVal (ds : List Char) : Nat :=
  ds.foldl (fun a c => a * 10 + (c.toNat - 48)) 0

/-- Parse a JSON numeral starting at `l` (which begins with `-` or a digit).
Integral numerals become `num`; numerals with a fraction or exponent part are
floats and are kept opaque as `numRaw` of their lexeme. -/
def parseNumber (l : List Char) : Option (PyJson × List Char) :=
  let (neg, l1) :=
    match l with
    | c :: rest => if c == '-' then (true, rest) else (false, l)
    | [] => (false, l)
  let (intDs, r1) := l1.span Char.isDigit
  if intDs.isEmpty then none
  else if intDs.length > 1 && intDs.headD '0' == '0' then none
  else
    let fracPart : Option (List Char × List Char) :=
      match r1 with
      | '.' :: r2 =>
        let (fds, r3) := r2.span Char.isDigit
        if fds.isEmpty then none else some ('.' :: fds, r3)
      | _ => some ([], r1)
    match fracPart with
    | none => none
    | some (fds, r3) =>
      let expPart : Option (List Char × List Char) :=
        match r3 with
        | c :: r4 =>
          if c == 'e' || c == 'E' then
            let (sgn, r5) :=
              match r4 with
              | s :: r6 => if s == '+' || s == '-' then ([s], r6) else ([], r4)
              | [] => ([], r4)
            let (eds, r7) := r5.span Char.isDigit
            if eds.isEmpty then none else some (c :: (sgn ++ eds), r7)
          else some ([], r3)
        | [] => some ([], r3)
      match expPart with
      | none => none
      | some (eds, rest) =>
        if fds.isEmpty && eds.isEmpty then
          let v : Int := Int.ofNat (digitsVal intDs)
          some (.num (if neg then -v else v), rest)
        else
          let lexeme := (if neg then ['-'] else []) ++ intDs ++ fds ++ eds
          some (.numRaw (String.mk lexeme), rest)

/-- Insert a decoded object member, modelling Python dict semantics: a repeated
key keeps its first position but takes the latest value. -/
def insertField (fs : List (String × PyJson)) (k : String) (v : PyJson) :
    List (String × PyJson) :=
  if fs.any (fun kv => kv.1 == k) then
    fs.map (fun kv => if kv.1 == k then (kv.1, v) else kv)
  else fs ++ [(k, v)]

def dedupeFields (raw : List (String × PyJson)) : List (String × PyJson) :=
  raw.foldl (fun acc kv => insertField acc kv.1 kv.2) []

def lbrace : Char := Char.ofNat 123

def rbrace : Char := Char.ofNat 125

mutual

/-- Parse one JSON value at the head of `l` (no leading whitespace).  Fuel
bounds the recursion depth; each recursive call consumes at least one
character first, so `length + 2` fuel always suffices. -/
def parseValue : Nat → List Char → Option (PyJson × List Char)
  | 0, _ => none
  | fuel + 1, l =>
    match l with
    | [] => none
    | c :: rest =>
      if c == '"' then
        match parseStringAux rest.length rest with
        | some (cs, r) => some (.str (String.mk cs), r)
        | none => none
      else if c == '[' then
        match skipWs rest with
        | ']' :: r2 => some (.arr [], r2)
        | r => match parseArrItems fuel r with
          | some (vs, r2) => some (.arr vs, r2)
          | none => none
      else if c == lbrace then
        match skipWs rest with
        | d :: r2 =>
          if d == rbrace then some (.obj [], r2)
          else
            match parseObjItems fuel (d :: r2) with
            | some (fs, r3) => some (.obj (dedupeFields fs), r3)
            | none => none
        | [] => none
      else if List.isPrefixOf "null".data l then some (.null, l.drop 4)
      else if List.isPrefixOf "true".data l then some (.bool true, l.drop 4)
      else if List.isPrefixOf "false".data l then some (.bool false, l.drop 5)
      else if List.isPrefixOf "NaN".data l then some (.numRaw "NaN", l.drop 3)
      else if List.isPrefixOf "Infinity".data l then some (.numRaw "Infinity", l.drop 8)
      else if List.isPrefixOf "-Infinity".data l then some (.numRaw "-Infinity", l.drop 9)
      else if c == '-' || c.isDigit then parseNumber l
      else none

/-- Parse the items of a non-empty JSON array (position: at the first item,
whitespace already skipped), up to and including the closing bracket. -/
def parseArrItems : Nat → List Char → Option (List PyJson × List Char)
  | 0, _ => none
  | fuel + 1, l =>
    match parseValue fuel l with
    | none => none
    | some (v, r) =>
      match skipWs r with
      | ',' :: r2 =>
        match parseArrItems fuel (skipWs r2) with
        | some (vs, r3) => some (v :: vs, r3)
        | none => none
      | ']' :: r2 => some ([v], r2)
      | _ => none

/-- Parse the members of a non-empty JSON object (position: at the first key,
whitespace already skipped), up to and including the closing brace. -/
def parseObjItems : Nat → List Char → Option (List (String × PyJson) × List Char)
  | 0, _ => none
  | fuel + 1, l =>
    match l with
    | c :: rest =>
      if c == '"' then
        match parseStringAux rest.length rest with
        | none => none
        | some (kcs, r) =>
          match skipWs r with
          | ':' :: r2 =>
            match parseValue fuel (skipWs r2) with
            | none => none
            | some (v, r3) =>
              match skipWs r3 with
              | ',' :: r4 =>
                match parseObjItems fuel (skipWs r4) with
                | some (fs, r5) => some ((String.mk kcs, v) :: fs, r5)
                | none => none
              | d :: r4 =>
                if d == rbrace then some ([(String.mk kcs, v)], r4) else none
              | [] => none
          | _ => none
      else none
    | [] => none

end

/-- Model of Python's `json.loads` on a whole string: the single decoded value
with only whitespace around it, `none` on any decode error (Python raises
`json.JSONDecodeError`, the only exception `json.loads` raises on `str`
input). -/
def jsonParse (s : String) : Option PyJson :=
  let l := skipWs s.data
  match parseValue (l.length + 2) l with
  | some (v, r) => if (skipWs r).isEmpty then some v else none
  | none => none

/-! Dynamic operations on decoded Python values. -/

/-- Lookup in a decoded object's field list (fields are de-duplicated at
decode time, so the first match is the binding). -/
def lookupField : List (String × PyJson) → String → Option PyJson
  | [], _ => none
  | (k, v) :: rest, key => if k == key then some v else lookupField rest key

/-- Subscript keys used by the embedded code: an `int` or a `str`. -/
inductive PyKey where
  | int (i : Int)
  | str (s : String)

/-- Model of Python subscripting `v[key]` for the value shapes `json.loads`
can produce: list indexing (negative indices count from the end, out of range
raises `IndexError`), string indexing, and dict lookup (`KeyError` when the
key is absent; decoded dict keys are strings, so an `int` key is absent).
Everything else raises `TypeError`. -/
def pySubscript (v : PyJson) (key : PyKey) : Except PyErr PyJson :=
  match v, key with
  | .arr l, .int i =>
    let j : Int := if i < 0 then i + l.length else i
    if j < 0 then .error .indexError
    else
      match l.get? j.toNat with
      | some x => .ok x
      | none => .error .indexError
  | .str s, .int i =>
    let j : Int := if i < 0 then i + s.length else i
    if j < 0 then .error .indexError
    else
      match s.data.get? j.toNat with
      | some c => .ok (.str (String.mk [c]))
      | none => .error .indexError
  | .obj fs, .str k =>
    match lookupField fs k with
    | some x => .ok x
    | none => .error .keyError
  | .obj _, .int _ => .error .keyError
  | .arr _, .str _ => .error .typeError
  | .str _, .str _ => .error .typeError
  | _, _ => .error .typeError

/-- Model of Python's `len`: defined for the sized shapes `json.loads` can
produce, `TypeError` otherwise. -/
def pyLen : PyJson → Except PyErr Nat
  | .arr l => .ok l.length
  | .str s => .ok s.length
  | .obj fs => .ok fs.length
  | _ => .error .typeError

/-- Model of Python iteration over a decoded value: list elements, string
characters, dict keys; `TypeError` otherwise. -/
def pyIterate : PyJson → Except PyErr (List PyJson)
  | .arr l => .ok l
  | .str s => .ok (s.data.map (fun c => .str (String.mk [c])))
  | .obj fs => .ok (fs.map (fun kv => PyJson.str kv.1))
  | _ => .error .typeError

/-- Model of Python `==` restricted to the comparisons the embedded code
performs: one side is always an `int` loop index or the string literal `"A"`,
so only scalar comparisons can arise; a scalar compared with a container is
`False` in Python, which the catch-all reproduces.  (`bool` participates in
numeric equality as `True == 1`.)  Non-integral numerals are opaque
(`numRaw`), so `int`-vs-`float` equality is conservatively `false`, and `NaN`
is unequal to itself. -/
def pyEq : PyJson → PyJson → Bool
  | .null, .null => true
  | .bool x, .bool y => x == y
  | .bool x, .num n => (if x then (1 : Int) else 0) == n
  | .num n, .bool y => n == (if y then (1 : Int) else 0)
  | .num x, .num y => x == y
  | .numRaw x, .numRaw y => x == y && !(x == "NaN")
  | .str x, .str y => x == y
  | _, _ => false

mutual

/-- Model of Python's `repr` on decoded JSON values, as produced when such a
value is interpolated into an f-string inside a container (strings are quoted,
`None`/`True`/`False` use Python spelling).  Opaque float lexemes are kept
as-is.  No theorem inspects this text. -/
def pyRepr : PyJson → String
  | .null => "None"
  | .bool true => "True"
  | .bool false => "False"
  | .num n => toString n
  | .numRaw s => s
  | .str s => "'" ++ s ++ "'"
  | .arr l => "[" ++ pyReprList l ++ "]"
  | .obj fs => String.mk [lbrace] ++ pyReprFields fs ++ String.mk [rbrace]

def pyReprList : List PyJson → String
  | [] => ""
  | [v] => pyRepr v
  | v :: rest => pyRepr v ++ ", " ++ pyReprList rest

def pyReprFields : List (String × PyJson) → String
  | [] => ""
  | [kv] => "'" ++ kv.1 ++ "': " ++ pyRepr kv.2
  | kv :: rest => "'" ++ kv.1 ++ "': " ++ pyRepr kv.2 ++ ", " ++ pyReprFields rest

end

/-- Model of Python's `str()` as used by f-string interpolation: a string
interpolates as itself, anything else via its `repr`. -/
def pyStr : PyJson → String
  | .str s => s
  | v => pyRepr v

/-- Model of `random.shuffle`: the oracle chooses the permutation.  An oracle
function that is not a permutation of its input is ignored (a real shuffle
always produces a permutation of the list). -/
def pyShuffle (f : List String → List String) (l : List String) : List String :=
  if (f l).isPerm l then f l else l

/-! The state snapshot (`problem_state.py`). -/

/-- Model of the `ProblemState` dataclass. -/
structure ProblemState where
  solution_content : String := ""
  context : String := ""
  last_error : Option String := none
deriving DecidableEq, Repr

/-- Model of `ProblemState.get_prompt_context` (Python truthiness: an empty
`solution_content` prints `(Empty)`, and a falsy `last_error` — `None` or the
empty string — prints `None`). -/
def ProblemState.get_prompt_context (st : ProblemState) : String :=
  "\n        --- CURRENT ATOMIC STATE ---\n        [EXISTING SOLUTION CONTENT]:\n        " ++
  (if st.solution_content == "" then "(Empty)" else st.solution_content) ++
  "\n\n        [CONTEXT / ENVIRONMENT]:\n        " ++ st.context ++
  "\n\n        [LAST VALIDATION ERROR]:\n        " ++
  (match st.last_error with
    | some e => if e == "" then "None" else e
    | none => "None") ++
  "\n        ----------------------------\n        "

/-! The validator (`universal_validator.py`). -/

namespace UniversalValidator

/-- Model of `UniversalValidator.validate`. -/
def validate (content : String) : Bool × String :=
  if pyStrip content == "" then (false, "Error: Empty output generated.")
  else if content.length < 5 then (false, "Error: Response too short to be valid.")
  else if strContains content "I cannot" || strContains content "I am an AI" then
    (true, "Warning: Potential refusal detected.")
  else (true, "Logic Valid")

end UniversalValidator

/-! The backend oracle.  `AtomicSolver._call_llm` wraps every backend
exception into the sentinel text `"# API Error: ..."`, so each call yields
some arbitrary string.  We model a run's backend behaviour as an oracle that
maps the index of each successive call to the returned text, plus an oracle
choice of the permutation applied by `random.shuffle` (indexed by the call
counter at the moment of the shuffle). -/

structure Env where
  resp : Nat → String
  shuffle : Nat → List String → List String

/-- Model of `AtomicSolver._call_llm`: returns the oracle's text for the
current call index and advances the call counter.  The prompt, temperature
and thinking level only influence the backend, which the oracle already
quantifies over, and exceptions never escape (they become sentinel text). -/
def call_llm (env : Env) (k : Nat) (prompt : String) : String × Nat :=
  (env.resp k, k + 1)

namespace AtomicSolver

/-- Default `model_name` from `AtomicSolver.__init__`. -/
def initModelName : String := "gemini-3-flash-preview"

/-- The stronger variant assigned to `self.model_name` by the (unreachable)
final-step escalation branch in `run`. -/
def finalModelName : String := "gemini-3-pro-preview"

/-- The state `run` creates: empty solution, caller context, no error. -/
def initState (context : String) : ProblemState :=
  { solution_content := "", context := context, last_error := none }

/-- The fixed final-report instruction that `decompose`'s prompt demands as
the last step (it appears verbatim twice in the prompt). -/
def canonicalFinalStep : String :=
  "Draft the final report following the required template structure, populating each section with the derived data and formulating actionable recommendations."

/-- Text of `decompose`'s prompt before the first occurrence of the
canonical final-step instruction. -/
def decomposePromptPre (st : ProblemState) (main_goal : String) : String :=
  "\n        You are a Strategic Planner.\n        " ++ st.get_prompt_context ++
  "\n\n        <goal>\n        " ++ main_goal ++
  "\n        </goal>\n\n        <task>\n        Break this goal down into 4 sequential, atomic steps. The final step needs to be: \""

/-- Text of `decompose`'s prompt after the first occurrence of the canonical
final-step instruction. -/
def decomposePromptPost : String :=
  "\"\n        Return ONLY a raw JSON list of strings.\n\n        Example JSON Output: [\"Research topic X\", \"Draft introduction\", \"Summarize key points\", \"" ++
  canonicalFinalStep ++ "\"]\n        </task>\n        "

/-- The prompt `decompose` sends (the f-string of lines 55-69). -/
def decomposePrompt (st : ProblemState) (main_goal : String) : String :=
  decomposePromptPre st main_goal ++ canonicalFinalStep ++ decomposePromptPost

/-- Model of `AtomicSolver.decompose`: one backend call, fence-stripping, then
`json.loads`; the decoded value is returned as-is (whatever shape it has), and
on `json.JSONDecodeError` the fallback is the single-step list `[main_goal]`. -/
def decompose (state : ProblemState) (main_goal : String) (env : Env) (k : Nat) :
    PyJson × Nat :=
  let (raw, k') := call_llm env k (decomposePrompt state main_goal)
  match jsonParse (stripFences raw) with
  | some steps => (steps, k')
  | none => (.arr [.str main_goal], k')

/-- Model of the evaluation of `prompt_template` in `AtomicSolver.choose_model`
(lines 91-113).  The f-string's example line

`  Example JSON Output: {"classifications": [{"task_id": 0, ...}, ...]}`

does not escape its braces, so Python parses `{"classifications": [{"task_id"
...}]}` as a replacement field whose format spec is applied to the string
`"task_id"`; evaluating the f-string raises `ValueError: Invalid format
specifier ' 0, "model": "A", "rationale": "formatting"' for object of type
'str'` on every call, before any backend request.  The prompt text therefore
never exists; building it always raises. -/
def chooseModelPromptBuild (tasks : PyJson) : Except PyErr String :=
  .error .valueError

/-- Model of `AtomicSolver.choose_model`: evaluate the prompt f-string (which
always raises, see `chooseModelPromptBuild`); the remaining lines mirror the
source's dead code: one backend call, fence-stripping, a `json.loads` with no
exception handler (decode failure propagates), and the `['classifications']`
subscript. -/
def choose_model (tasks : PyJson) (env : Env) (k : Nat) :
    Except PyErr (PyJson × Nat) :=
  match chooseModelPromptBuild tasks with
  | .error e => .error e
  | .ok prompt =>
    let (raw, k') := call_llm env k prompt
    match jsonParse (stripFences raw) with
    | none => .error .jsonDecodeError
    | some decoded =>
      match pySubscript decoded (.str "classifications") with
      | .error e => .error e
      | .ok classifications => .ok (classifications, k')

/-- The solver prompt of `solve_step_with_voting` (lines 131-145), shared by
all `vote_count` candidate calls. -/
def solverPrompt (st : ProblemState) (task : PyJson) : String :=
  "\n        You are an Expert Solver.\n        " ++ st.get_prompt_context ++
  "\n\n        <CURRENT ATOMIC TASK>\n        " ++ pyStr task ++
  "\n        </CURRENT ATOMIC TASK>\n\n        <CONSTRAINT>\n        Your response must allow for easy verification. \n        Structure your answer as:\n         <Key Concept/Direct Answer />\n         <Supporting Evidence />\n        </CONSTRAINT>\n        "

/-- Candidate generation loop of `solve_step_with_voting` (lines 148-154):
each iteration evaluates `model['model']` (to pick temperature/thinking,
which only the backend sees) and makes one backend call; candidates are
collected in call order. -/
def genCandidates (env : Env) (st : ProblemState) (task model : PyJson) :
    Nat → Nat → Except PyErr (List String × Nat)
  | 0, k => .ok ([], k)
  | n + 1, k =>
    match pySubscript model (.str "model") with
    | .error e => .error e
    | .ok _ =>
      let (res, k1) := call_llm env k (solverPrompt st task)
      match genCandidates env st task model n k1 with
      | .error e => .error e
      | .ok (rest, k2) => .ok (res :: rest, k2)

/-- Text of the judge prompt (lines 161-198) given the three candidate texts
it embeds. -/
def judgePromptText (task : PyJson) (c0 c1 c2 : String) : String :=
  "\n        <ROLE>\n        You are a senior quality assurance expert. Your task is to evaluate several possible answers to a \n        complex task based on the following criteria and select the best one. I will provide you with a \n        complex task and three candidate answers generated by different AI agents.\n        </ROLE>\n\n        <CANDIDATE RESPONSES to-task=\"" ++
  pyStr task ++
  "\">\n            <Response_A>\n            " ++ c0 ++
  "\n            </Response_A>\n\n            <Response_B>\n            " ++ c1 ++
  "\n            </Response_B>\n\n            <Response_C>\n            " ++ c2 ++
  "\n            </Response_C>\n        </CANDIDATE RESPONSES>\n\n        <EVALUATION CRITERIA>\n        1. **Accuracy:** Does the response directly address the task without hallucination?\n        2. **Consistency:** Does it align with the \"Context Provided\"?\n        3. **Clarity:** Is the writing concise and actionable?\n        4. **Biases:** Do not favor longer responses solely for their length. Prioritize conciseness.\n        </EVALUATION CRITERIA>\n\n        <VOTING INSTRUCTIONS>\n        1. Analyze the differences between A, B, and C.\n        2. If two responses agree and one contradicts, heavily penalize the outlier, unless the outlier is obviously factually superior.\n        3. Select the winner.\n        </VOTING INSTRUCTIONS>\n\n        <OUTPUT FORMAT>\n        Return ONLY the winning <Key Concept/Direct Answer> response.\n        </OUTPUT FORMAT>\n        "

/-- Python list indexing with a non-negative literal index, as used by the
judge prompt's `candidates[0]`, `candidates[1]`, `candidates[2]`. -/
def pyListIndex (l : List String) (i : Nat) : Except PyErr String :=
  match l.get? i with
  | some x => .ok x
  | none => .error .indexError

/-- Building the judge prompt evaluates `candidates[0]`, `candidates[1]` and
`candidates[2]` of the shuffled list — and nothing beyond them — raising
`IndexError` when fewer than three candidates exist. -/
def judgePrompt (task : PyJson) (candidates : List String) : Except PyErr String :=
  match pyListIndex candidates 0 with
  | .error e => .error e
  | .ok c0 =>
    match pyListIndex candidates 1 with
    | .error e => .error e
    | .ok c1 =>
      match pyListIndex candidates 2 with
      | .error e => .error e
      | .ok c2 => .ok (judgePromptText task c0 c1 c2)

/-- Model of `AtomicSolver.solve_step_with_voting`: the entry logging
f-string evaluates `model['model']` (line 126), then `vote_count` candidates
are generated, shuffled (oracle permutation), the judge prompt is built from
the first three shuffled candidates, one judge call is made, and the judge's
raw response is returned with `<...>` tag spans removed — it is not matched
against the candidate set. -/
def solve_step_with_voting (env : Env) (state : ProblemState) (task model : PyJson)
    (vote_count : Nat) (k : Nat) : Except PyErr (String × Nat) :=
  match pySubscript model (.str "model") with
  | .error e => .error e
  | .ok _ =>
    match genCandidates env state task model vote_count k with
    | .error e => .error e
    | .ok (candidates, k1) =>
      let shuffled := pyShuffle (env.shuffle k1) candidates
      match judgePrompt task shuffled with
      | .error e => .error e
      | .ok jp =>
        let (winner_raw, k2) := call_llm env k1 jp
        .ok (stripHtmlTags winner_raw, k2)

/-- The self-correction prompt of `run` (line 243). -/
def fixPrompt (msg new_content : String) : String :=
  "Fix this error in the previous output: " ++ msg ++ "\nOutput: " ++ new_content

/-- One iteration of `run`'s step loop (lines 217-251) for the enumerated
step `(i, step)`: evaluate the guard `i == steps[-1]` (whose subscript can
raise), solve the step with voting using `models[i]`, validate, and either
accept (labelled append for a non-final step, outright replacement for the
final step, `last_error` cleared) or set `last_error`, make one repair call
and re-validate (plain newline append on success, no mutation on failure). -/
def stepOnce (env : Env) (stepsJ modelsJ : PyJson) (number_of_steps : Nat)
    (i : Nat) (step : PyJson) (st : ProblemState) (mn : String) (k : Nat) :
    Except PyErr (ProblemState × String × Nat) :=
  match pySubscript stepsJ (.int (-1)) with
  | .error e => .error e
  | .ok lastElem =>
    let mn1 := if pyEq (.num (Int.ofNat i)) lastElem then finalModelName else mn
    match pySubscript modelsJ (.int (Int.ofNat i)) with
    | .error e => .error e
    | .ok cls =>
      match solve_step_with_voting env st step cls 3 k with
      | .error e => .error e
      | .ok (new_content, k1) =>
        let v := UniversalValidator.validate new_content
        if v.1 then
          let st1 :=
            if i + 1 < number_of_steps then
              { st with solution_content :=
                  st.solution_content ++ "\n\n--- " ++ pyStr step ++ " ---\n" ++ new_content }
            else
              { st with solution_content := new_content }
          .ok ({ st1 with last_error := none }, mn1, k1)
        else
          let st1 := { st with last_error := some v.2 }
          let (fixed_content, k2) := call_llm env k1 (fixPrompt v.2 new_content)
          if (UniversalValidator.validate fixed_content).1 then
            .ok ({ st1 with solution_content :=
                st1.solution_content ++ "\n" ++ fixed_content }, mn1, k2)
          else
            .ok (st1, mn1, k2)

/-- The step loop of `run`, folding `stepOnce` over the enumerated steps. -/
def runSteps (env : Env) (stepsJ modelsJ : PyJson) (number_of_steps : Nat) :
    List (Nat × PyJson) → ProblemState → String → Nat →
    Except PyErr (ProblemState × String × Nat)
  | [], st, mn, k => .ok (st, mn, k)
  | (i, step) :: rest, st, mn, k =>
    match stepOnce env stepsJ modelsJ number_of_steps i step st mn k with
    | .error e => .error e
    | .ok (st1, mn1, k1) => runSteps env stepsJ modelsJ number_of_steps rest st1 mn1 k1

/-- Model of `AtomicSolver.run` exposing the final state, model name and call
counter: create the state, decompose, take `len(steps)`, route (which always
raises, see `chooseModelPromptBuild`), then execute the step loop over
`enumerate(steps)`. -/
def runAux (goal context : String) (env : Env) (mn0 : String) :
    Except PyErr (ProblemState × String × Nat) :=
  let st0 := initState context
  let dres := decompose st0 goal env 0
  let stepsJ := dres.1
  let k1 := dres.2
  match pyLen stepsJ with
  | .error e => .error e
  | .ok number_of_steps =>
    match choose_model stepsJ env k1 with
    | .error e => .error e
    | .ok (modelsJ, k2) =>
      match pyIterate stepsJ with
      | .error e => .error e
      | .ok items =>
        runSteps env stepsJ modelsJ number_of_steps items.enum st0 mn0 k2

/-- Model of `AtomicSolver.run`: the returned value is the final
`state.solution_content`. -/
def run (goal context : String) (env : Env) : Except PyErr String :=
  match runAux goal context env initModelName with
  | .error e => .error e
  | .ok (st, _, _) => .ok st.solution_content

end AtomicSolver

/-! Helper definitions and lemmas shared by the claim theorems. -/

/-- Backend oracle built from an explicit response list (further calls get
the empty string) with an identity shuffle. -/
def respFromList (rs : List String) (k : Nat) : String := rs.getD k ""

def mkEnv (rs : List String) : Env := ⟨respFromList rs, fun _ l => l⟩

def isStrJson : PyJson → Bool
  | .str _ => true
  | _ => false

/-- The texts returned by `n` successive backend calls starting at index `k`. -/
def respWindow (env : Env) (k : Nat) : Nat → List String
  | 0 => []
  | n + 1 => env.resp k :: respWindow env (k + 1) n

theorem respWindow_length (env : Env) (k n : Nat) :
    (respWindow env k n).length = n := by
  induction n generalizing k with
  | zero => rfl
  | succ n ih => simp [respWindow, ih]

theorem pyShuffle_length (f : List String → List String) (l : List String) :
    (pyShuffle f l).length = l.length := by
  unfold pyShuffle
  by_cases h : (f l).isPerm l = true
  · simp [h, (List.isPerm_iff.mp h).length_eq]
  · simp [h]

theorem pySubscript_arr_mem {l : List PyJson} {i : Int} {v : PyJson}
    (h : pySubscript (.arr l) (.int i) = .ok v) : v ∈ l := by
  by_cases hj : (if i < 0 then i + l.length else i) < 0
  · simp [pySubscript, hj] at h
  · cases hg : l[(if i < 0 then i + (l.length : Int) else i).toNat]? with
    | none => simp [pySubscript, hj, hg] at h
    | some x =>
      have hx : x ∈ l := List.getElem?_mem hg
      simp [pySubscript, hj, hg] at h
      exact h ▸ hx

theorem genCandidates_spec (env : Env) (st : ProblemState) (task model mv : PyJson)
    (h : pySubscript model (.str "model") = .ok mv) :
    ∀ n k, AtomicSolver.genCandidates env st task model n k =
      .ok (respWindow env k n, k + n) := by
  intro n
  induction n with
  | zero => intro k; rfl
  | succ n ih =>
    intro k
    unfold AtomicSolver.genCandidates
    rw [h]
    simp only [call_llm]
    rw [ih (k + 1)]
    simp [respWindow]
    omega

theorem judgePrompt_err_of_short (task : PyJson) (l : List String) (h : l.length < 3) :
    AtomicSolver.judgePrompt task l = .error .indexError := by
  match l with
  | [] => rfl
  | [a] => rfl
  | [a, b] => rfl
  | a :: b :: c :: rest => simp at h; omega

theorem judgePrompt_ok_of_len (task : PyJson) (l : List String) (h : 3 ≤ l.length) :
    ∃ t, AtomicSolver.judgePrompt task l = .ok t := by
  match l with
  | [] => simp at h
  | [a] => simp at h
  | [a, b] => simp at h
  | a :: b :: c :: rest => exact ⟨_, rfl⟩

theorem judgePrompt_take_three (task : PyJson) (l : List String) :
    AtomicSolver.judgePrompt task l = AtomicSolver.judgePrompt task (l.take 3) := by
  match l with
  | [] => rfl
  | [a] => rfl
  | [a, b] => rfl
  | a :: b :: c :: rest => rfl

/-- Full behaviour of `solve_step_with_voting` when the classification has a
`model` field and at least three candidates are requested: all `vote_count`
candidate calls happen, then the judge's response (call index `k + vote_count`)
is returned with tags stripped, whatever the shuffle did. -/
theorem solve_step_spec (env : Env) (st : ProblemState) (task model mv : PyJson)
    (vc k : Nat) (h : pySubscript model (.str "model") = .ok mv) (h3 : 3 ≤ vc) :
    AtomicSolver.solve_step_with_voting env st task model vc k =
      .ok (stripHtmlTags (env.resp (k + vc)), k + vc + 1) := by
  obtain ⟨t, ht⟩ := judgePrompt_ok_of_len task
    (pyShuffle (env.shuffle (k + vc)) (respWindow env k vc))
    (by rw [pyShuffle_length, respWindow_length]; exact h3)
  unfold AtomicSolver.solve_step_with_voting
  rw [h, genCandidates_spec env st task model mv h vc k]
  simp only [ht, call_llm]

theorem solve_step_short (env : Env) (st : ProblemState) (task model mv : PyJson)
    (vc k : Nat) (h : pySubscript model (.str "model") = .ok mv) (hvc : vc < 3) :
    AtomicSolver.solve_step_with_voting env st task model vc k = .error .indexError := by
  have hshort := judgePrompt_err_of_short task
    (pyShuffle (env.shuffle (k + vc)) (respWindow env k vc))
    (by rw [pyShuffle_length, respWindow_length]; exact hvc)
  unfold AtomicSolver.solve_step_with_voting
  rw [h, genCandidates_spec env st task model mv h vc k]
  simp only [hshort]

theorem pyLen_err {v : PyJson} {e : PyErr} (h : pyLen v = .error e) :
    e = .typeError := by
  cases v <;> simp_all [pyLen]

theorem pyEq_num_str (i : Int) (s : String) : pyEq (.num i) (.str s) = false := rfl

/-- The guard `i == steps[-1]` compares the integer loop index with an element
of the step list; when every decomposed step is a string the comparison is
always `False`, so a successful loop iteration leaves `self.model_name`
unchanged. -/
theorem stepOnce_mn {env : Env} {l : List PyJson} {modelsJ : PyJson} {n i : Nat}
    {step : PyJson} {st st' : ProblemState} {mn mn' : String} {k k' : Nat}
    (hl : ∀ e ∈ l, isStrJson e = true)
    (h : AtomicSolver.stepOnce env (.arr l) modelsJ n i step st mn k = .ok (st', mn', k')) :
    mn' = mn := by
  unfold AtomicSolver.stepOnce at h
  cases hsub : pySubscript (.arr l) (.int (-1)) with
  | error e => simp only [hsub] at h; exact Except.noConfusion h
  | ok le =>
    simp only [hsub] at h
    obtain ⟨s, rfl⟩ : ∃ s, le = .str s := by
      have hmem := hl le (pySubscript_arr_mem hsub)
      cases le <;> simp_all [isStrJson]
    simp only [pyEq_num_str, Bool.false_eq_true, if_false] at h
    cases hcls : pySubscript modelsJ (.int (Int.ofNat i)) with
    | error e => simp only [hcls] at h; exact Except.noConfusion h
    | ok cls =>
      simp only [hcls] at h
      cases hsv : AtomicSolver.solve_step_with_voting env st step cls 3 k with
      | error e => simp only [hsv] at h; exact Except.noConfusion h
      | ok p =>
        obtain ⟨w, k1⟩ := p
        simp only [hsv] at h
        by_cases hv : (UniversalValidator.validate w).1 = true
        · simp only [hv, if_true] at h
          by_cases hn : i + 1 < n
          · simp only [hn, if_true] at h
            simp only [Except.ok.injEq, Prod.mk.injEq] at h
            exact h.2.1.symm
          · simp only [hn, if_false] at h
            simp only [Except.ok.injEq, Prod.mk.injEq] at h
            exact h.2.1.symm
        · simp only [Bool.not_eq_true] at hv
          simp only [hv, Bool.false_eq_true, if_false, call_llm] at h
          by_cases hf : (UniversalValidator.validate (env.resp k1)).1 = true
          · simp only [hf, if_true, Except.ok.injEq, Prod.mk.injEq] at h
            exact h.2.1.symm
          · simp only [Bool.not_eq_true] at hf
            simp only [hf, Bool.false_eq_true, if_false, Except.ok.injEq, Prod.mk.injEq] at h
            exact h.2.1.symm

theorem runSteps_mn {env : Env} {l : List PyJson} {modelsJ : PyJson} {n : Nat}
    {items : List (Nat × PyJson)} {st : ProblemState} {mn : String} {k : Nat}
    {out : ProblemState × String × Nat}
    (hl : ∀ e ∈ l, isStrJson e = true)
    (h : AtomicSolver.runSteps env (.arr l) modelsJ n items st mn k = .ok out) :
    out.2.1 = mn := by
  induction items generalizing st mn k with
  | nil =>
    simp only [AtomicSolver.runSteps, Except.ok.injEq] at h
    rw [← h]
  | cons p rest ih =>
    obtain ⟨i, step⟩ := p
    simp only [AtomicSolver.runSteps] at h
    cases hso : AtomicSolver.stepOnce env (.arr l) modelsJ n i step st mn k with
    | error e => simp only [hso] at h; exact Except.noConfusion h
    | ok q =>
      obtain ⟨st1, mn1, k1⟩ := q
      simp only [hso] at h
      rw [ih h, stepOnce_mn hl hso]

/-- Full characterization of a successful loop iteration's resulting state,
given the outcomes of the guard subscript, the routing subscript and the
voting solve: a winner passing validation is appended as a labelled section
(non-final step) or replaces the solution (final step) with `last_error`
cleared; a failing winner sets `last_error` to its diagnostic and the repair
text (the next backend response) is plain-appended if it validates, with
`last_error` left at the first failure's diagnostic either way. -/
theorem stepOnce_result {env : Env} {stepsJ modelsJ : PyJson} {n i : Nat}
    {step : PyJson} {st st' : ProblemState} {mn mn' : String} {k k' : Nat}
    {le cls : PyJson} {w : String} {k1 : Nat}
    (h1 : pySubscript stepsJ (.int (-1)) = .ok le)
    (h2 : pySubscript modelsJ (.int (Int.ofNat i)) = .ok cls)
    (h3 : AtomicSolver.solve_step_with_voting env st step cls 3 k = .ok (w, k1))
    (h4 : AtomicSolver.stepOnce env stepsJ modelsJ n i step st mn k = .ok (st', mn', k')) :
    st' =
      if (UniversalValidator.validate w).1 then
        (if i + 1 < n then
          { st with
            solution_content :=
              st.solution_content ++ "\n\n--- " ++ pyStr step ++ " ---\n" ++ w
            last_error := none }
        else { st with solution_content := w, last_error := none })
      else
        (if (UniversalValidator.validate (env.resp k1)).1 then
          { st with
            solution_content := st.solution_content ++ "\n" ++ env.resp k1
            last_error := some (UniversalValidator.validate w).2 }
        else { st with last_error := some (UniversalValidator.validate w).2 }) := by
  unfold AtomicSolver.stepOnce at h4
  simp only [h1, h2, h3] at h4
  by_cases hv : (UniversalValidator.validate w).1 = true
  · simp only [hv, if_true] at h4 ⊢
    by_cases hn : i + 1 < n
    · simp only [hn, if_true] at h4 ⊢
      simp only [Except.ok.injEq, Prod.mk.injEq] at h4
      exact h4.1.symm
    · simp only [hn, if_false] at h4 ⊢
      simp only [Except.ok.injEq, Prod.mk.injEq] at h4
      exact h4.1.symm
  · simp only [Bool.not_eq_true] at hv
    simp only [hv, Bool.false_eq_true, if_false, call_llm] at h4 ⊢
    by_cases hf : (UniversalValidator.validate (env.resp k1)).1 = true
    · simp only [hf, if_true] at h4 ⊢
      simp only [Except.ok.injEq, Prod.mk.injEq] at h4
      exact h4.1.symm
    · simp only [Bool.not_eq_true] at hf
      simp only [hf, Bool.false_eq_true, if_false] at h4 ⊢
      simp only [Except.ok.injEq, Prod.mk.injEq] at h4
      exact h4.1.symm

/-! Concrete oracles for witnesses and counterexamples. -/

def modelClsA : PyJson := .obj [("model", .str "A")]

def envC1 : Env := mkEnv ["c0 cand", "c1 cand", "c2 cand", "bad", "REPAIR OUTPUT TEXT"]

def envC1w : Env := mkEnv ["m0 cand", "m1 cand", "m2 cand", "winner text okay"]

def envC3 : Env := mkEnv ["aaaaa", "bbbbb", "ccccc", "banana"]

def envC3w : Env := mkEnv ["w0 cand", "w1 cand", "w2 cand", "<b>win</b>ner"]

def envC7 : Env := mkEnv ["[\"alpha\"]"]

def envC7w : Env := mkEnv ["[\"x one\", \"y two\"]"]

def envC8 : Env := mkEnv ["x0 cand", "x1 cand", "x2 cand", "tiny", "REPAIRED CONTENT OK"]

def envC8w : Env := mkEnv ["n0 cand", "n1 cand", "n2 cand", "accepted answer ok"]

def envC9 : Env := mkEnv ["a0 cand", "a1 cand", "a2 cand", "first winner ok",
  "b0 cand", "b1 cand", "b2 cand", "final report ok"]

def envC10 : Env := mkEnv ["p cand", "q cand"]

/-! Claim C1. -/

/-- Claim C1 (counterexample): a final step (`i + 1 = number_of_steps`) whose
winner fails validation and whose repair text passes is *appended* after the
earlier fragments with a bare newline — the accepted (repaired) text does not
replace `solution_content`, is not labelled, and the result is not the final
step's text alone. -/
theorem C1_counterexample_repaired_final_step :
    AtomicSolver.stepOnce envC1 (.arr [.str "s0", .str "s1"])
        (.arr [modelClsA, modelClsA]) 2 1 (.str "s1")
        ⟨"\n\n--- s0 ---\nprior section text", "", none⟩ AtomicSolver.initModelName 0 =
      .ok (⟨"\n\n--- s0 ---\nprior section text\nREPAIR OUTPUT TEXT", "",
            some "Error: Response too short to be valid."⟩,
           AtomicSolver.initModelName, 5) ∧
    (UniversalValidator.validate "REPAIR OUTPUT TEXT").1 = true ∧
    "\n\n--- s0 ---\nprior section text\nREPAIR OUTPUT TEXT" ≠ "REPAIR OUTPUT TEXT" :=
  ⟨rfl, rfl, by decide⟩

/-- Claim C1 (amended): a step whose winner passes validation directly is
appended as a labelled section when it is not the last step and fully
replaces `solution_content` when it is the last step; but text accepted only
via the single repair call is always appended with a bare newline — no
section label and no replacement even for the last step — and a step whose
repair also fails leaves `solution_content` unchanged. -/
theorem C1_amended_accumulation (env : Env) (stepsJ modelsJ : PyJson) (n i : Nat)
    (step : PyJson) (st st' : ProblemState) (mn mn' : String) (k k' : Nat)
    (le cls : PyJson) (w : String) (k1 : Nat)
    (h1 : pySubscript stepsJ (.int (-1)) = .ok le)
    (h2 : pySubscript modelsJ (.int (Int.ofNat i)) = .ok cls)
    (h3 : AtomicSolver.solve_step_with_voting env st step cls 3 k = .ok (w, k1))
    (h4 : AtomicSolver.stepOnce env stepsJ modelsJ n i step st mn k = .ok (st', mn', k')) :
    st'.solution_content =
      if (UniversalValidator.validate w).1 then
        (if i + 1 < n then
          st.solution_content ++ "\n\n--- " ++ pyStr step ++ " ---\n" ++ w
        else w)
      else
        (if (UniversalValidator.validate (env.resp k1)).1 then
          st.solution_content ++ "\n" ++ env.resp k1
        else st.solution_content) := by
  rw [stepOnce_result h1 h2 h3 h4]
  by_cases hv : (UniversalValidator.validate w).1 = true
  · simp only [hv, if_true]
    by_cases hn : i + 1 < n
    · simp [hn]
    · simp [hn]
  · simp only [Bool.not_eq_true] at hv
    simp only [hv, Bool.false_eq_true, if_false]
    by_cases hf : (UniversalValidator.validate (env.resp k1)).1 = true
    · simp [hf]
    · simp [hf]

/-- Witness for C1's amended accumulation rule: a non-final step whose winner
validates directly is appended as a labelled section. -/
theorem C1_amended_accumulation_witness :
    (⟨"\n\n--- s0 ---\nwinner text okay", "", none⟩ : ProblemState).solution_content =
      if (UniversalValidator.validate "winner text okay").1 then
        (if 0 + 1 < 2 then
          (AtomicSolver.initState "").solution_content ++ "\n\n--- " ++
            pyStr (.str "s0") ++ " ---\n" ++ "winner text okay"
        else "winner text okay")
      else
        (if (UniversalValidator.validate (envC1w.resp 4)).1 then
          (AtomicSolver.initState "").solution_content ++ "\n" ++ envC1w.resp 4
        else (AtomicSolver.initState "").solution_content) :=
  C1_amended_accumulation envC1w (.arr [.str "s0", .str "s1"])
    (.arr [modelClsA, modelClsA]) 2 0 (.str "s0") (AtomicSolver.initState "")
    ⟨"\n\n--- s0 ---\nwinner text okay", "", none⟩
    AtomicSolver.initModelName AtomicSolver.initModelName 0 4
    (.str "s1") modelClsA "winner text okay" 4 rfl rfl rfl rfl

/-! Claim C2. -/

/-- Claim C2 (counterexample): `validate "ok!!"` is rejected — `"ok!!"` has
four characters, below the five-character threshold, so the reference table's
`(True, "Logic Valid")` entry is wrong for it. -/
theorem C2_counterexample_ok_bang_bang :
    UniversalValidator.validate "ok!!" = (false, "Error: Response too short to be valid.") :=
  rfl

/-- Claim C2 (amended): the validator's reference table with the length
example corrected — empty and whitespace-only inputs are rejected as empty,
the four-character `"ok!!"` is rejected as too short (see the
counterexample), a five-character marker-free string such as `"ok!!!"` yields
`(True, "Logic Valid")`, and `"I cannot help"` is accepted with the refusal
warning. -/
theorem C2_amended_validator_table :
    UniversalValidator.validate "" = (false, "Error: Empty output generated.") ∧
    UniversalValidator.validate "   " = (false, "Error: Empty output generated.") ∧
    UniversalValidator.validate "ok!!!" = (true, "Logic Valid") ∧
    UniversalValidator.validate "I cannot help" = (true, "Warning: Potential refusal detected.") :=
  ⟨rfl, rfl, rfl, rfl⟩

/-! Claim C3. -/

/-- Claim C3 (counterexample): judging does not return a member of the
candidate set and has no default-to-first-candidate fallback — with
candidates `"aaaaa"`, `"bbbbb"`, `"ccccc"` (identity shuffle) and judge
response `"banana"`, the step returns `"banana"`, which is neither a
candidate nor the first shuffled candidate. -/
theorem C3_counterexample_judge_free_text :
    AtomicSolver.solve_step_with_voting envC3 (AtomicSolver.initState "")
        (.str "t") modelClsA 3 0 = .ok ("banana", 4) ∧
    "banana" ∉ ["aaaaa", "bbbbb", "ccccc"] ∧
    "banana" ≠ "aaaaa" :=
  ⟨rfl, by decide, by decide⟩

/-- Claim C3 (amended): judging returns exactly the judge call's response
with `<...>` markup spans stripped; the result is not matched against the
candidate set, no identifier is extracted, and no fallback to the first
shuffled candidate exists — the judge's text is returned whatever it is. -/
theorem C3_amended_judge_passthrough (env : Env) (st : ProblemState)
    (task model mv : PyJson) (k : Nat)
    (h : pySubscript model (.str "model") = .ok mv) :
    AtomicSolver.solve_step_with_voting env st task model 3 k =
      .ok (stripHtmlTags (env.resp (k + 3)), k + 4) :=
  solve_step_spec env st task model mv 3 k h (by omega)

/-- Witness for C3's amended passthrough: the judge response `"<b>win</b>ner"`
comes back as `"winner"`. -/
theorem C3_amended_judge_passthrough_witness :
    AtomicSolver.solve_step_with_voting envC3w (AtomicSolver.initState "")
        (.str "t") modelClsA 3 0 = .ok (stripHtmlTags (envC3w.resp 3), 4) :=
  C3_amended_judge_passthrough envC3w (AtomicSolver.initState "") (.str "t")
    modelClsA (.str "A") 0 rfl

/-! Claim C4. -/

/-- Claim C4 (code bug): `run` never returns a solution string for any goal,
context or backend behaviour.  Building `choose_model`'s prompt f-string
raises `ValueError` on every call (its example JSON's braces are unescaped
replacement fields), so every run fails there — or earlier with `TypeError`
at `len(steps)` when the decomposition response decodes to an unsized value.
The claim's single permitted failure (routing decode) can never occur. -/
theorem C4_run_never_returns (goal ctx : String) (env : Env) :
    AtomicSolver.run goal ctx env = .error .typeError ∨
    AtomicSolver.run goal ctx env = .error .valueError := by
  unfold AtomicSolver.run AtomicSolver.runAux
  cases h : pyLen (AtomicSolver.decompose (AtomicSolver.initState ctx) goal env 0).1 with
  | error e =>
    have he := pyLen_err h
    subst he
    left
    simp only [h]
  | ok n =>
    right
    simp only [h, AtomicSolver.choose_model, AtomicSolver.chooseModelPromptBuild]

/-! Claim C5. -/

/-- Claim C5 (code bug): `choose_model` raises `ValueError` while evaluating
its prompt f-string, before the routing request is ever made, for every task
list, oracle and call index — so no routing response is ever decoded and a
decode error can never be the failure surfaced to `run`'s caller. -/
theorem C5_choose_model_always_raises (tasks : PyJson) (env : Env) (k : Nat) :
    AtomicSolver.choose_model tasks env k = .error .valueError :=
  rfl

/-! Claim C6. -/

/-- Claim C6 (confirmed): whenever the cleaned decomposition response fails
JSON decoding (including the empty response), `decompose` returns the
single-element step list `[goal]` and the run is not aborted by the decode
failure. -/
theorem C6_decompose_decode_failure_fallback (state : ProblemState) (goal : String)
    (env : Env) (k : Nat) (h : jsonParse (stripFences (env.resp k)) = none) :
    AtomicSolver.decompose state goal env k = (.arr [.str goal], k + 1) := by
  unfold AtomicSolver.decompose
  simp [call_llm, h]

/-- Witness for C6: the empty response is undecodable and falls back to
`[goal]`. -/
theorem C6_decompose_decode_failure_fallback_witness :
    jsonParse (stripFences ((mkEnv []).resp 0)) = none ∧
    AtomicSolver.decompose (AtomicSolver.initState "") "Summarize project X" (mkEnv []) 0 =
      (.arr [.str "Summarize project X"], 1) :=
  ⟨rfl, C6_decompose_decode_failure_fallback (AtomicSolver.initState "")
    "Summarize project X" (mkEnv []) 0 rfl⟩

/-! Claim C7. -/

/-- Claim C7 (counterexample): a decomposition response decoding to
`["alpha"]` makes `decompose` return a step list whose last element is
`"alpha"`, not the canonical final-report instruction — nothing enforces or
asserts the contract on the output. -/
theorem C7_counterexample_last_step_not_canonical :
    AtomicSolver.decompose (AtomicSolver.initState "") "some goal" envC7 0 =
      (.arr [.str "alpha"], 1) ∧
    "alpha" ≠ AtomicSolver.canonicalFinalStep :=
  ⟨rfl, by decide⟩

/-- Claim C7 (amended): the decomposition *prompt* embeds the canonical
final-report instruction (verbatim, as the demanded final step), but the
returned step list is exactly whatever the response decodes to — `decompose`
passes the decoded value through unchecked, so its last element equals the
canonical string only when the response complies (and the decode-failure
fallback ends with the goal instead). -/
theorem C7_amended_prompt_requests_but_unenforced :
    (∀ (st : ProblemState) (goal : String), ∃ a b,
      AtomicSolver.decomposePrompt st goal = a ++ AtomicSolver.canonicalFinalStep ++ b) ∧
    (∀ (st : ProblemState) (goal : String) (env : Env) (k : Nat) (v : PyJson),
      jsonParse (stripFences (env.resp k)) = some v →
      AtomicSolver.decompose st goal env k = (v, k + 1)) := by
  constructor
  · intro st goal
    exact ⟨AtomicSolver.decomposePromptPre st goal, AtomicSolver.decomposePromptPost, rfl⟩
  · intro st goal env k v h
    unfold AtomicSolver.decompose
    simp [call_llm, h]

/-- Witness for C7: a decoded two-step response not ending in the canonical
instruction is returned verbatim. -/
theorem C7_amended_prompt_requests_but_unenforced_witness :
    AtomicSolver.decompose (AtomicSolver.initState "") "g" envC7w 0 =
      (.arr [.str "x one", .str "y two"], 1) :=
  C7_amended_prompt_requests_but_unenforced.2 (AtomicSolver.initState "") "g"
    envC7w 0 (.arr [.str "x one", .str "y two"]) rfl

/-! Claim C8. -/

/-- Claim C8 (counterexample): a step whose winner fails validation and whose
repair text is accepted (it is appended to the solution) still ends the
iteration with `last_error` holding the first failure's diagnostic —
acceptance of the repaired text does not clear `last_error` to `None`. -/
theorem C8_counterexample_last_error_kept :
    AtomicSolver.stepOnce envC8 (.arr [.str "s1"]) (.arr [modelClsA]) 1 0 (.str "s1")
        (AtomicSolver.initState "") AtomicSolver.initModelName 0 =
      .ok (⟨"\nREPAIRED CONTENT OK", "", some "Error: Response too short to be valid."⟩,
           AtomicSolver.initModelName, 5) ∧
    (UniversalValidator.validate "REPAIRED CONTENT OK").1 = true :=
  ⟨rfl, rfl⟩

/-- Claim C8 (amended): after each processed step, `last_error` is `None`
exactly when the step's winner passed the *first* validation; when the first
validation failed, `last_error` holds that first diagnostic and keeps it even
if the repaired text is accepted (and also when the repair fails, regardless
of the repair validation's own diagnostic). -/
theorem C8_amended_last_error_first_validation (env : Env) (stepsJ modelsJ : PyJson)
    (n i : Nat) (step : PyJson) (st st' : ProblemState) (mn mn' : String) (k k' : Nat)
    (le cls : PyJson) (w : String) (k1 : Nat)
    (h1 : pySubscript stepsJ (.int (-1)) = .ok le)
    (h2 : pySubscript modelsJ (.int (Int.ofNat i)) = .ok cls)
    (h3 : AtomicSolver.solve_step_with_voting env st step cls 3 k = .ok (w, k1))
    (h4 : AtomicSolver.stepOnce env stepsJ modelsJ n i step st mn k = .ok (st', mn', k')) :
    st'.last_error =
      if (UniversalValidator.validate w).1 then none
      else some (UniversalValidator.validate w).2 := by
  rw [stepOnce_result h1 h2 h3 h4]
  by_cases hv : (UniversalValidator.validate w).1 = true
  · simp only [hv, if_true]
    by_cases hn : i + 1 < n
    · simp [hn]
    · simp [hn]
  · simp only [Bool.not_eq_true] at hv
    simp only [hv, Bool.false_eq_true, if_false]
    by_cases hf : (UniversalValidator.validate (env.resp k1)).1 = true
    · simp [hf]
    · simp [hf]

/-- Witness for C8's amended rule: a directly accepted final step ends with
`last_error = None`. -/
theorem C8_amended_last_error_first_validation_witness :
    (⟨"accepted answer ok", "", none⟩ : ProblemState).last_error =
      if (UniversalValidator.validate "accepted answer ok").1 then none
      else some (UniversalValidator.validate "accepted answer ok").2 :=
  C8_amended_last_error_first_validation envC8w (.arr [.str "s1"]) (.arr [modelClsA])
    1 0 (.str "s1") (AtomicSolver.initState "")
    ⟨"accepted answer ok", "", none⟩
    AtomicSolver.initModelName AtomicSolver.initModelName 0 4
    (.str "s1") modelClsA "accepted answer ok" 4 rfl rfl rfl rfl

/-! Claim C9. -/

/-- Claim C9 (code bug): whenever the decomposed steps are strings (the shape
the prompt demands), no iteration of the step loop ever changes
`self.model_name` — the guard `i == steps[-1]` compares the integer loop
index with the final step string and is always `False`, so the swap to the
stronger model before the last step never happens. -/
theorem C9_model_never_swapped (env : Env) (l : List PyJson) (modelsJ : PyJson)
    (n : Nat) (items : List (Nat × PyJson)) (st : ProblemState) (mn : String)
    (k : Nat) (out : ProblemState × String × Nat)
    (hl : ∀ e ∈ l, isStrJson e = true)
    (h : AtomicSolver.runSteps env (.arr l) modelsJ n items st mn k = .ok out) :
    out.2.1 = mn :=
  runSteps_mn hl h

/-- Witness for C9: a complete two-step loop (the second step being the final
report step) ends with the model name still the base model. -/
theorem C9_model_never_swapped_witness :
    ((⟨"final report ok", "", none⟩ : ProblemState),
      AtomicSolver.initModelName, 8).2.1 = AtomicSolver.initModelName :=
  C9_model_never_swapped envC9 [.str "s0", .str "s1"] (.arr [modelClsA, modelClsA])
    2 [(0, .str "s0"), (1, .str "s1")] (AtomicSolver.initState "")
    AtomicSolver.initModelName 0
    ((⟨"final report ok", "", none⟩ : ProblemState), AtomicSolver.initModelName, 8)
    (by decide) rfl

/-! Claim C10. -/

/-- Claim C10 (confirmed): the judge prompt always embeds exactly the first
three shuffled candidates — (1) any call with `vote_count < 3` (and a
classification carrying a `model` key) raises `IndexError`; (2) the judge
prompt built from a candidate list depends only on its first three elements;
(3) any call with `vote_count ≥ 3` makes all `vote_count` candidate calls yet
returns the judge response to the prompt holding only the first three
shuffled candidates. -/
theorem C10_judge_first_three_only :
    (∀ (env : Env) (st : ProblemState) (task model mv : PyJson) (vc k : Nat),
      pySubscript model (.str "model") = .ok mv → vc < 3 →
      AtomicSolver.solve_step_with_voting env st task model vc k = .error .indexError) ∧
    (∀ (task : PyJson) (cands : List String),
      AtomicSolver.judgePrompt task cands = AtomicSolver.judgePrompt task (cands.take 3)) ∧
    (∀ (env : Env) (st : ProblemState) (task model mv : PyJson) (vc k : Nat),
      pySubscript model (.str "model") = .ok mv → 3 ≤ vc →
      AtomicSolver.solve_step_with_voting env st task model vc k =
        .ok (stripHtmlTags (env.resp (k + vc)), k + vc + 1)) :=
  ⟨fun env st task model mv vc k h hvc => solve_step_short env st task model mv vc k h hvc,
   judgePrompt_take_three,
   fun env st task model mv vc k h hvc => solve_step_spec env st task model mv vc k h hvc⟩

/-- Witness for C10: a two-candidate call raises `IndexError`. -/
theorem C10_judge_first_three_only_witness :
    AtomicSolver.solve_step_with_voting envC10 (AtomicSolver.initState "")
        (.str "t") modelClsA 2 0 = .error .indexError :=
  C10_judge_first_three_only.1 envC10 (AtomicSolver.initState "") (.str "t")
    modelClsA (.str "A") 2 0 rfl (by omega)
